import Mathlib

/-!
# InboxForge — verification of the ingestion pipeline and search component

Shallow embedding of the InboxForge sources (message parsing, content
fingerprinting, deduplicating ingestion, attachment storage, and the
Whoosh-backed search engine), with theorems settling the spec claims.

Bytes are `Nat` values taken modulo 256, 32-bit machine words are `Nat`
values taken modulo 2^32, and filesystem paths are lists of path
components (the `parts` view of Python's `pathlib`).
-/

namespace InboxForge

/-! ## SHA-256 over byte lists

`EmailParser.generate_email_id` calls `hashlib.sha256(content).hexdigest()`;
the algorithm is embedded here directly (FIPS 180-4) so the fingerprint is a
concrete computable function of the raw bytes. -/

/-- 2^32, the modulus for 32-bit words. -/
def w32 : Nat := 4294967296

/-- Rotate the low 32 bits of a word to the right by `n` positions. -/
def rotr32 (x n : Nat) : Nat :=
  ((x >>> n) ||| (x <<< (32 - n))) % w32

/-- Bitwise complement of a 32-bit word. -/
def not32 (x : Nat) : Nat := x ^^^ (w32 - 1)

/-- SHA-256 Σ0. -/
def bigSigma0 (x : Nat) : Nat := rotr32 x 2 ^^^ rotr32 x 13 ^^^ rotr32 x 22

/-- SHA-256 Σ1. -/
def bigSigma1 (x : Nat) : Nat := rotr32 x 6 ^^^ rotr32 x 11 ^^^ rotr32 x 25

/-- SHA-256 σ0. -/
def smallSigma0 (x : Nat) : Nat := rotr32 x 7 ^^^ rotr32 x 18 ^^^ (x >>> 3)

/-- SHA-256 σ1. -/
def smallSigma1 (x : Nat) : Nat := rotr32 x 17 ^^^ rotr32 x 19 ^^^ (x >>> 10)

/-- SHA-256 choice function. -/
def chFn (x y z : Nat) : Nat := (x &&& y) ^^^ (not32 x &&& z)

/-- SHA-256 majority function. -/
def majFn (x y z : Nat) : Nat := (x &&& y) ^^^ (x &&& z) ^^^ (y &&& z)

/-- The 64 round constants of SHA-256 (FIPS 180-4 section 4.2.2), written in decimal. -/
def sha256K : List Nat :=
  [1116352408, 1899447441, 3049323471, 3921009573, 961987163,
   1508970993, 2453635748, 2870763221, 3624381080, 310598401,
   607225278, 1426881987, 1925078388, 2162078206, 2614888103,
   3248222580, 3835390401, 4022224774, 264347078, 604807628,
   770255983, 1249150122, 1555081692, 1996064986, 2554220882,
   2821834349, 2952996808, 3210313671, 3336571891, 3584528711,
   113926993, 338241895, 666307205, 773529912, 1294757372,
   1396182291, 1695183700, 1986661051, 2177026350, 2456956037,
   2730485921, 2820302411, 3259730800, 3345764771, 3516065817,
   3600352804, 4094571909, 275423344, 430227734, 506948616,
   659060556, 883997877, 958139571, 1322822218, 1537002063,
   1747873779, 1955562222, 2024104815, 2227730452, 2361852424,
   2428436474, 2756734187, 3204031479, 3329325298]

/-- Big-endian byte encoding of `n` on `k` bytes. -/
def beBytes (k n : Nat) : List Nat :=
  (List.range k).map (fun i => (n >>> (8 * (k - 1 - i))) % 256)

/-- SHA-256 message padding: a 0x80 byte, zeros to 56 mod 64, then the
bit length on 8 big-endian bytes. -/
def padMessage (msg : List Nat) : List Nat :=
  msg ++ [128] ++ List.replicate ((119 - msg.length % 64) % 64) 0
      ++ beBytes 8 (8 * msg.length)

/-- Split a byte list into 64-byte blocks (the fuel bounds the recursion). -/
def chunks64 : Nat → List Nat → List (List Nat)
  | 0, _ => []
  | fuel + 1, l => if l.isEmpty then [] else l.take 64 :: chunks64 fuel (l.drop 64)

/-- Pack bytes into big-endian 32-bit words, four bytes per word. -/
def bytesToWords : List Nat → List Nat
  | b0 :: b1 :: b2 :: b3 :: rest =>
      ((((b0 % 256) * 256 + b1 % 256) * 256 + b2 % 256) * 256 + b3 % 256)
        :: bytesToWords rest
  | _ => []

/-- Next word of the SHA-256 message schedule, from the words so far. -/
def scheduleWord (ws : List Nat) : Nat :=
  let l := ws.length
  (smallSigma1 (ws.getD (l - 2) 0) + ws.getD (l - 7) 0
    + smallSigma0 (ws.getD (l - 15) 0) + ws.getD (l - 16) 0) % w32

/-- Extend the message schedule by `n` further words. -/
def extendSchedule : Nat → List Nat → List Nat
  | 0, ws => ws
  | n + 1, ws => extendSchedule n (ws ++ [scheduleWord ws])

/-- The eight 32-bit working variables of the compression function. -/
structure Hash8 where
  a : Nat
  b : Nat
  c : Nat
  d : Nat
  e : Nat
  f : Nat
  g : Nat
  h : Nat
deriving DecidableEq

/-- The initial hash state of SHA-256 (FIPS 180-4 section 5.3.3), written in decimal. -/
def sha256H0 : Hash8 :=
  { a := 1779033703, b := 3144134277, c := 1013904242, d := 2773480762,
    e := 1359893119, f := 2600822924, g := 528734635, h := 1541459225 }

/-- One SHA-256 round, consuming a round constant paired with a schedule word. -/
def sha256Round (st : Hash8) (kw : Nat × Nat) : Hash8 :=
  let t1 := (st.h + bigSigma1 st.e + chFn st.e st.f st.g + kw.1 + kw.2) % w32
  let t2 := (bigSigma0 st.a + majFn st.a st.b st.c) % w32
  { a := (t1 + t2) % w32, b := st.a, c := st.b, d := st.c,
    e := (st.d + t1) % w32, f := st.e, g := st.f, h := st.g }

/-- Compress one 64-byte block into the running hash state. -/
def compressBlock (st : Hash8) (block : List Nat) : Hash8 :=
  let ws := extendSchedule 48 (bytesToWords block)
  let t := (sha256K.zip ws).foldl sha256Round st
  { a := (st.a + t.a) % w32, b := (st.b + t.b) % w32,
    c := (st.c + t.c) % w32, d := (st.d + t.d) % w32,
    e := (st.e + t.e) % w32, f := (st.f + t.f) % w32,
    g := (st.g + t.g) % w32, h := (st.h + t.h) % w32 }

/-- SHA-256 of a byte list, as the final eight-word state. -/
def sha256Words (msg : List Nat) : Hash8 :=
  let padded := padMessage msg
  (chunks64 padded.length padded).foldl compressBlock sha256H0

/-- Lowercase hexadecimal digit for a value below 16. -/
def hexDigitChar (n : Nat) : Char :=
  if n < 10 then Char.ofNat (48 + n) else Char.ofNat (87 + n)

/-- Eight lowercase hex characters of a 32-bit word, most significant first. -/
def wordToHex (x : Nat) : List Char :=
  (List.range 8).map (fun i => hexDigitChar ((x >>> (4 * (7 - i))) % 16))

/-- The 64-character lowercase hex digest of SHA-256, as `hexdigest()` yields it. -/
def sha256hexChars (msg : List Nat) : List Char :=
  let st := sha256Words msg
  [st.a, st.b, st.c, st.d, st.e, st.f, st.g, st.h].flatMap wordToHex

/-- ASCII byte encoding of a string (all sanity-check inputs are ASCII). -/
def asciiBytes (s : String) : List Nat := s.data.map Char.toNat

/-- `EmailParser.generate_email_id`: the first 16 characters of
`hashlib.sha256(content).hexdigest()` (identical in
`src/classes/email_parser.py` and `src/utils/email_parser.py`). -/
def generate_email_id (content : List Nat) : String :=
  String.mk ((sha256hexChars content).take 16)

/-! ## Date extraction (`_parse_date` in both parser variants)

Timestamps stand in for the ISO-8601 strings `datetime.isoformat()` yields:
`isoformat` is injective on instants, so distinct `Nat` timestamps model
distinct date strings. The wall clock is passed explicitly: a call made at
time `now` sees `datetime.now() = now`. -/

/-- The Date header as the parser sees it: absent, present but rejected by
`email.utils.parsedate_to_datetime`, or parsed to a timestamp. -/
inductive DateHeader where
  | missing : DateHeader
  | unparseable : DateHeader
  | valid (t : Nat) : DateHeader
deriving DecidableEq

/-- The `src/classes/email_parser.py` parser: `__init__` runs
`self.default_date = datetime.now().isoformat()` once, at construction
time `t0`. -/
structure ClassesEmailParser where
  default_date : Nat
deriving DecidableEq

/-- Construct the classes parser at clock time `t0`. -/
def mkClassesEmailParser (t0 : Nat) : ClassesEmailParser :=
  { default_date := t0 }

/-- `EmailParser._parse_date` of `src/classes/email_parser.py`: missing or
unparseable dates fall back to `self.default_date`; the call-time clock
`now` is unused. -/
def classesParseDate (p : ClassesEmailParser) (d : DateHeader) (now : Nat) : Nat :=
  match d with
  | .missing => p.default_date
  | .unparseable => p.default_date
  | .valid t => let _ := now; t

/-- `EmailParser._parse_date` of `src/utils/email_parser.py`: missing or
unparseable dates fall back to `datetime.now().isoformat()`, re-read at
every call. -/
def utilsParseDate (d : DateHeader) (now : Nat) : Nat :=
  match d with
  | .missing => now
  | .unparseable => now
  | .valid t => t

/-! ## Multipart body extraction (`_process_multipart` /
`_handle_multipart_body`)

A message's parts are the flat sequence `msg.walk()` visits. The payload
is carried already decoded (`_decode_content`'s UTF-8/Latin-1 choice is the
host library's and is orthogonal to the traversal the claims are about). -/

/-- One MIME part as the walk yields it. -/
structure MimePart where
  maintype : String
  subtype : String
  filename : Option String
  payload : String
deriving DecidableEq

/-- Python truthiness of `part.get_filename()`: `None` and the empty string
are both falsy. -/
def hasNoFilename (p : MimePart) : Bool :=
  match p.filename with
  | none => true
  | some s => s = ""

/-- The body dictionary `{'plain': ..., 'html': ...}`. -/
structure EmailBody where
  plain : String
  html : String
deriving DecidableEq

/-- `body[content_type] = value` for `content_type` in `plain`/`html`. -/
def bodySet (b : EmailBody) (st v : String) : EmailBody :=
  if st = "plain" then { b with plain := v }
  else if st = "html" then { b with html := v }
  else b

/-- Read the body entry for a subtype. -/
def bodyGet (b : EmailBody) (st : String) : String :=
  if st = "plain" then b.plain
  else if st = "html" then b.html
  else ""

/-- One iteration of the `_process_multipart` loop: a `text` part with no
filename and subtype `plain` or `html` overwrites that body entry. -/
def processMultipartStep (b : EmailBody) (p : MimePart) : EmailBody :=
  if p.maintype = "text" ∧ hasNoFilename p then
    if p.subtype = "plain" ∨ p.subtype = "html" then bodySet b p.subtype p.payload
    else b
  else b

/-- `EmailParser._process_multipart`: fold the loop body over the walk. -/
def processMultipart (b : EmailBody) (parts : List MimePart) : EmailBody :=
  parts.foldl processMultipartStep b

/-- The filename-less text parts of a given subtype, in walk order. -/
def relevantParts (st : String) (parts : List MimePart) : List MimePart :=
  parts.filter (fun p => p.maintype = "text" && hasNoFilename p && p.subtype = st)

/-- The payload of the last part of a list, or a default when it is empty —
the value a sequence of overwriting assignments leaves behind. -/
def lastPayloadD (parts : List MimePart) (dflt : String) : String :=
  match parts with
  | [] => dflt
  | p :: rest => lastPayloadD rest p.payload

/-! ## Paths and the FileHandler (`src/classes/file_handler.py`)

A path is its list of `pathlib` parts: parsing a POSIX path string drops
empty components and `.`, and keeps `..`. -/

/-- Split a character list at every occurrence of a separator, the way
Python's `str.split(sep)` does (empty segments kept). -/
def splitOnChar (sep : Char) : List Char → List (List Char)
  | [] => [[]]
  | c :: rest =>
      match splitOnChar sep rest with
      | [] => [[]]
      | g :: gs => if c = sep then [] :: g :: gs else (c :: g) :: gs

/-- Python's `str.strip()` with no argument: whitespace removed from both
ends. -/
def pyStrip (s : String) : String :=
  String.mk (((s.data.dropWhile Char.isWhitespace).reverse.dropWhile
    Char.isWhitespace).reverse)

/-- `pathlib` parts of a POSIX path string (root marker aside, which plays
no role in any claim): split on `/`, dropping empty components and `.`. -/
def parsePath (s : String) : List String :=
  ((splitOnChar '/' s.data).map String.mk).filter (fun c => c ≠ "" && c ≠ ".")

/-- `Path(s).name`: the final part, or `""` when there is none. -/
def pathName (p : List String) : String := p.getLast?.getD ""

/-- `p / s` for a single component: `pathlib` ignores an empty component. -/
def joinPath (p : List String) (s : String) : List String :=
  if s = "" then p else p ++ [s]

/-- Resolve `..` components, as the operating system does when the path is
opened. `parsePath` output contains no `""`/`.` components, so only `..`
needs treatment. -/
def normalizePath (p : List String) : List String :=
  p.foldl (fun acc c => if c = ".." then acc.dropLast else acc ++ [c]) []

/-- Python-level errors the embedded operations surface. -/
inductive PyErr where
  | valueError (msg : String)
  | searchError (msg : String)
  | fileNotFoundError (msg : String)
deriving DecidableEq

instance {ε α : Type} [DecidableEq ε] [DecidableEq α] : DecidableEq (Except ε α) :=
  fun x y =>
    match x, y with
    | .ok a, .ok b =>
        if h : a = b then isTrue (by rw [h])
        else isFalse (fun hc => h (Except.ok.inj hc))
    | .ok _, .error _ => isFalse (fun hc => Except.noConfusion hc)
    | .error _, .ok _ => isFalse (fun hc => Except.noConfusion hc)
    | .error e, .error f =>
        if h : e = f then isTrue (by rw [h])
        else isFalse (fun hc => h (Except.error.inj hc))

/-- `src/paths.py`: `DATA_DIR = ROOT_DIR / 'data'`. -/
def DATA_DIR : List String := ["ROOT", "data"]

/-- `FileHandler._validate_data_dir`: a falsy argument yields the default
`DATA_DIR`; a custom path is rejected exactly when it does not exist and
its final component is `data`. `fsExists` is the state of the filesystem
at the call. -/
def validateDataDir (fsExists : List String → Bool) (data_dir : Option String) :
    Except PyErr (List String) :=
  match data_dir with
  | none => .ok DATA_DIR
  | some s =>
      if s = "" then .ok DATA_DIR
      else
        let p := parsePath s
        if fsExists p = false ∧ pathName p = "data" then
          .error (.fileNotFoundError "Invalid data directory")
        else .ok p

/-- The constructed handler: the validated root and its two subdirectories. -/
structure FileHandler where
  data_dir : List String
  attachments_dir : List String
  processed_dir : List String
deriving DecidableEq

/-- `FileHandler.__init__`: validate the root, then `_ensure_directories`
creates `attachments` and `processed` under it. The second component lists
the directories created. -/
def mkFileHandler (fsExists : List String → Bool) (data_dir : Option String) :
    Except PyErr (FileHandler × List (List String)) :=
  match validateDataDir fsExists data_dir with
  | .error e => .error e
  | .ok d =>
      .ok ({ data_dir := d, attachments_dir := d ++ ["attachments"],
             processed_dir := d ++ ["processed"] },
           [d ++ ["attachments"], d ++ ["processed"]])

/-- An attachment as the parser hands it over. -/
structure AttachmentRec where
  name : String
  mimeType : String
  size : Nat
  content : List Nat
deriving DecidableEq

/-- What one `save_attachment` call does: the path written, the bytes
written, and the store-relative path returned. -/
structure SaveOutcome where
  written_path : List String
  written_content : List Nat
  returned : List String
deriving DecidableEq

/-- `FileHandler.save_attachment`: directory scoped to the email id,
`safe_filename = Path(attachment['name']).name`, raw bytes written, path
relative to the data root returned. -/
def save_attachment (fh : FileHandler) (email_id : String) (att : AttachmentRec) :
    SaveOutcome :=
  let attachment_dir := joinPath fh.attachments_dir email_id
  let safe_filename := pathName (parsePath att.name)
  let file_path := joinPath attachment_dir safe_filename
  { written_path := file_path,
    written_content := att.content,
    returned := file_path.drop fh.data_dir.length }

/-! ## Deduplicating ingestion (`JsonOrganizer.process_email`)

`src/classes/json_organizer.py` imports `EmailParser(existing_ids=...)` and
`DuplicateEmailError`; that parser variant is not under `src`, so its
duplicate gate is modelled from the spec (§4.2): `checkAndRegister(id)`
yields `duplicate` when the fingerprint is already in the in-memory id set,
else `accepted`, with the id then added to the set and appended to the
durable id log. Everything else below follows `process_email`. -/

/-- Modelled from the spec: the persisted record of one message. Only the
fingerprint identity matters to the dedup contract; field extraction is the
parser's separate concern (§4.1) and is settled by the parser claims. -/
structure ProcessedEmailRec where
  id : String
deriving DecidableEq

/-- The organizer's mutable state: the in-memory id set (as the list of ids
in insertion order), the append-only id log, and the record store
(`processed/<id>.json` files). -/
structure OrganizerState where
  existing_ids : List String
  id_log : List String
  processed_store : List ProcessedEmailRec
deriving DecidableEq

/-- How many stored records carry a given fingerprint. -/
def storeCount (st : OrganizerState) (eid : String) : Nat :=
  (st.processed_store.filter (fun r => r.id = eid)).length

/-- `JsonOrganizer.process_email` on the raw bytes of one `.eml` file: the
fingerprint is checked against `existing_ids` (`DuplicateEmailError` is
caught and turned into the `None` result); on acceptance the record is
written — the store is keyed by id, so a same-id file would be overwritten,
never duplicated — and the id is added to the set and appended to the log. -/
def processEmail (st : OrganizerState) (rawBytes : List Nat) :
    Option ProcessedEmailRec × OrganizerState :=
  let eid := generate_email_id rawBytes
  if eid ∈ st.existing_ids then
    (none, st)
  else
    let pe : ProcessedEmailRec := { id := eid }
    (some pe,
     { existing_ids := st.existing_ids ++ [eid],
       id_log := st.id_log ++ [eid],
       processed_store := st.processed_store.filter (fun r => r.id ≠ eid) ++ [pe] })

/-! ## Search engines

Two generations live in the source: `src/core/search_engine.py` (the one
`src/cli/search.py` drives) and the older `src/classes/search_engine.py`
(still constructed by `src/cli/ingest.py`). Whoosh is modelled
denotationally: a document is its stored fields with each text field as its
token list, a query is the AST `_build_query` assembles, and matching is
the evident semantics (`Every` matches all, `DateRange` is inclusive with
open bounds unbounded, `And` is conjunction, parsed multi-field text is
AND across terms and OR across fields). Relevance order is out of scope,
so results keep index order. -/

/-- A document as indexed: stored fields plus the tokenized text fields. -/
structure EmailDoc where
  id : String
  sender : List String
  recipient : List String
  subject : List String
  content : List String
  date : Nat
deriving DecidableEq

/-- `SearchEngine.SEARCHABLE_FIELDS` of `src/core/search_engine.py`. -/
def SEARCHABLE_FIELDS : List String := ["subject", "content", "sender", "recipient"]

/-- `SearchEngine.SEARCHABLE_FIELDS` of `src/classes/search_engine.py`
(`body` instead of `content`). -/
def classesSearchableFields : List String := ["subject", "body", "sender", "recipient"]

/-- The token list a schema field name denotes on a document. The core
schema calls the content field `content`; the classes schema calls it
`body`; each engine validates names against its own list before any query
is built, so the two readings never mix. -/
def docField (d : EmailDoc) (f : String) : List String :=
  if f = "subject" then d.subject
  else if f = "content" then d.content
  else if f = "body" then d.content
  else if f = "sender" then d.sender
  else if f = "recipient" then d.recipient
  else []

/-- Terms of a free-text query, as whitespace-separated words. -/
def queryTerms (q : String) : List String :=
  ((splitOnChar ' ' q.data).map String.mk).filter (fun t => t ≠ "")

/-- The query ASTs `_build_query` can assemble. -/
inductive WhooshQuery where
  | every : WhooshQuery
  | parsed (fields : List String) (text : String) : WhooshQuery
  | dateRange (lo hi : Option Nat) : WhooshQuery
  | conj (q1 q2 : WhooshQuery) : WhooshQuery
deriving DecidableEq

/-- Denotational matching of a query against one document. -/
def matchesQuery (d : EmailDoc) : WhooshQuery → Bool
  | .every => true
  | .parsed fields text =>
      (queryTerms text).all (fun t => fields.any (fun f => (docField d f).contains t))
  | .dateRange lo hi =>
      (match lo with | none => true | some a => a ≤ d.date)
        && (match hi with | none => true | some b => d.date ≤ b)
  | .conj q1 q2 => matchesQuery d q1 && matchesQuery d q2

/-- A date filter as `search` receives it: optional start and end bounds. -/
abbrev DateRangeFilter := Option Nat × Option Nat

/-- `SearchEngine._build_query` of `src/core/search_engine.py`:
`Every()` unless the stripped query text is non-empty, then the date filter
is conjoined, choosing the bound shape by truthiness of each bound. When
both bounds are `None` the truthy tuple enters the branch but no
`date_query` is ever assigned: the `NameError` escapes to the caller's
`except` clause. -/
def buildQuery (q : String) (fields : List String) (dr : Option DateRangeFilter) :
    Except String WhooshQuery :=
  let base := if pyStrip q = "" then WhooshQuery.every else WhooshQuery.parsed fields q
  match dr with
  | none => .ok base
  | some (some a, some b) => .ok (.conj base (.dateRange (some a) (some b)))
  | some (some a, none) => .ok (.conj base (.dateRange (some a) none))
  | some (none, some b) => .ok (.conj base (.dateRange none (some b)))
  | some (none, none) => .error "name date_query is not defined"

/-- Modelled from the spec: `DEFAULT_MAX_RESULTS` lives in
`src/config/settings.py`, which is not under `src`; the spec fixes only
that the cap is a fixed positive default maximum. -/
def DEFAULT_MAX_RESULTS : Int := 100

/-- `result_limit = max_results or self.MAX_RESULTS`: Python truthiness
replaces both an omitted argument and an explicit `0` by the default. -/
def coreResultLimit (max_results : Option Int) : Int :=
  match max_results with
  | none => DEFAULT_MAX_RESULTS
  | some n => if n = 0 then DEFAULT_MAX_RESULTS else n

/-- `search_fields = fields if fields else self.SEARCHABLE_FIELDS`: `None`
and the empty list are both falsy. -/
def resolveFields (fields : Option (List String)) : List String :=
  match fields with
  | none => SEARCHABLE_FIELDS
  | some [] => SEARCHABLE_FIELDS
  | some fs => fs

/-- `SearchEngine.search` of `src/core/search_engine.py` over the indexed
documents: cap check, then field validation, then the built query filters
the index, truncated to the result limit. -/
def coreSearch (docs : List EmailDoc) (q : String) (fields : Option (List String))
    (dr : Option DateRangeFilter) (max_results : Option Int) :
    Except PyErr (List EmailDoc) :=
  let result_limit := coreResultLimit max_results
  if result_limit < 1 then .error (.valueError "max_results must be greater than 0")
  else
    let search_fields := resolveFields fields
    if (search_fields.filter (fun f => decide (f ∉ SEARCHABLE_FIELDS))) ≠ [] then
      .error (.valueError "Invalid search fields")
    else
      match buildQuery q search_fields dr with
      | .error e => .error (.searchError e)
      | .ok qq => .ok ((docs.filter (fun d => matchesQuery d qq)).take result_limit.toNat)

/-- `SearchEngine._build_search_query` of `src/classes/search_engine.py`:
the parsed text query, conjoined with `DateRange('date', start, end)` when
a range is given. -/
def classesBuildQuery (q : String) (fields : List String) (dr : Option DateRangeFilter) :
    WhooshQuery :=
  match dr with
  | none => .parsed fields q
  | some (a, b) => .conj (.parsed fields q) (.dateRange a b)

/-- `SearchEngine._validate_search_params` of `src/classes/search_engine.py`:
an empty stripped query is rejected; field validation runs only when the
list is truthy (non-`None` and non-empty). -/
def classesValidateParams (q : String) (fields : Option (List String)) :
    Option PyErr :=
  if pyStrip q = "" then some (.valueError "Search query cannot be empty")
  else
    match fields with
    | none => none
    | some fs =>
        if fs ≠ [] ∧ (fs.filter (fun f => decide (f ∉ classesSearchableFields))) ≠ [] then
          some (.valueError "Invalid search fields")
        else none

/-- `SearchEngine.search` of `src/classes/search_engine.py`: validation,
then the query runs with `limit=self.MAX_RESULTS`, and `MAX_RESULTS = None`,
so every matching document is returned. -/
def classesSearch (docs : List EmailDoc) (q : String) (fields : Option (List String))
    (dr : Option DateRangeFilter) : Except PyErr (List EmailDoc) :=
  match classesValidateParams q fields with
  | some e => .error e
  | none =>
      let search_fields :=
        match fields with
        | none => classesSearchableFields
        | some [] => classesSearchableFields
        | some fs => fs
      .ok (docs.filter (fun d => matchesQuery d (classesBuildQuery q search_fields dr)))

/-- Whether a document's date lies in an optional, possibly half-open,
inclusive range — the spec's reading of the date filter. -/
def dateInRange (dr : Option DateRangeFilter) (d : EmailDoc) : Bool :=
  match dr with
  | none => true
  | some (lo, hi) =>
      (match lo with | none => true | some a => a ≤ d.date)
        && (match hi with | none => true | some b => d.date ≤ b)

/-- Free-text matching over a field selection: AND across terms, OR across
fields. -/
def textMatch (fields : List String) (q : String) (d : EmailDoc) : Bool :=
  (queryTerms q).all (fun t => fields.any (fun f => (docField d f).contains t))

/-- Stated from the spec's words, for comparison with `coreSearch`: a
document is a hit when the text matches (vacuously, for an empty query)
and its date lies in the range. -/
def searchSpecMatches (q : String) (fields : List String) (dr : Option DateRangeFilter)
    (d : EmailDoc) : Bool :=
  (if pyStrip q = "" then true else textMatch fields q d) && dateInRange dr d

/-! ## Concrete inputs used by the witnesses -/

/-- A record dated 2024-01-01, with token `a` in its subject. -/
def demoJan : EmailDoc :=
  { id := "jan", sender := ["alice"], recipient := ["bob"],
    subject := ["a"], content := ["hello"], date := 20240101 }

/-- A record dated 2024-06-15. -/
def demoJun : EmailDoc :=
  { demoJan with id := "jun", date := 20240615 }

/-- A record dated 2024-12-31. -/
def demoDec : EmailDoc :=
  { demoJan with id := "dec", date := 20241231 }

/-- An empty organizer state: fresh id set, log, and store. -/
def emptyOrganizerState : OrganizerState :=
  { existing_ids := [], id_log := [], processed_store := [] }

/-- The spec's attachment round-trip example: a file declared as
`../../evil.txt`. -/
def demoEvilAtt : AttachmentRec :=
  { name := "../../evil.txt", mimeType := "text/plain", size := 2,
    content := [104, 105] }

/-- Two filename-less plain-text parts with distinct payloads. -/
def demoParts : List MimePart :=
  [{ maintype := "text", subtype := "plain", filename := none, payload := "first" },
   { maintype := "text", subtype := "plain", filename := none, payload := "second" }]

/-! # Theorems -/

/-! ## Sanity checks: the embedded SHA-256 against the FIPS 180-4 vectors -/

theorem sha256_vector_abc :
    String.mk (sha256hexChars (asciiBytes "abc"))
      = "ba7816bf8f01cfea414140de5dae2223b00361a396177a9cb410ff61f20015ad" := by
  decide

theorem sha256_vector_empty :
    String.mk (sha256hexChars [])
      = "e3b0c44298fc1c149afbf4c8996fb92427ae41e4649b934ca495991b7852b855" := by
  decide

/-! ## Digest shape lemmas -/

theorem wordToHex_length (x : Nat) : (wordToHex x).length = 8 := by
  simp [wordToHex]

theorem sha256hexChars_length (msg : List Nat) : (sha256hexChars msg).length = 64 := by
  simp [sha256hexChars, wordToHex_length]

theorem hexDigitChar_mem (m : Nat) (hm : m < 16) :
    hexDigitChar m ∈ "0123456789abcdef".data := by
  interval_cases m <;> decide

theorem mem_wordToHex (c : Char) (x : Nat) (h : c ∈ wordToHex x) :
    c ∈ "0123456789abcdef".data := by
  simp only [wordToHex, List.mem_map, List.mem_range] at h
  obtain ⟨i, _, rfl⟩ := h
  exact hexDigitChar_mem _ (Nat.mod_lt _ (by norm_num))

theorem mem_sha256hexChars (c : Char) (msg : List Nat) (h : c ∈ sha256hexChars msg) :
    c ∈ "0123456789abcdef".data := by
  simp only [sha256hexChars, List.mem_flatMap] at h
  obtain ⟨x, _, hx⟩ := h
  exact mem_wordToHex c x hx

/-- C6: `generate_email_id(B)` is the first 16 hexadecimal characters of the
SHA-256 digest of `B`; being a plain function of the bytes it is
deterministic across calls and parser instances, and its result always has
length 16 and consists of hex digits only. -/
theorem generate_email_id_is_sha256_prefix16 (content : List Nat) :
    generate_email_id content = String.mk ((sha256hexChars content).take 16)
    ∧ (generate_email_id content).length = 16
    ∧ ∀ c ∈ (generate_email_id content).data, c ∈ "0123456789abcdef".data := by
  refine ⟨rfl, ?_, ?_⟩
  · show ((sha256hexChars content).take 16).length = 16
    simp [List.length_take, sha256hexChars_length]
  · intro c hc
    have hc2 : c ∈ sha256hexChars content :=
      List.take_subset 16 _ hc
    exact mem_sha256hexChars c content hc2

/-! ## C5: the fallback date -/

/-- C5 counterexample: the parser of `src/utils/email_parser.py` re-reads
the clock on every fallback, so two messages with missing and unparseable
Date headers parsed through one instance at clock times 1 and 2 receive
different fallback dates — the claim fails on this parser variant. -/
theorem utils_parser_fallback_drifts :
    utilsParseDate DateHeader.missing 1 = 1
    ∧ utilsParseDate DateHeader.unparseable 2 = 2
    ∧ utilsParseDate DateHeader.missing 1 ≠ utilsParseDate DateHeader.unparseable 2 := by
  decide

/-- C5 amended: for the parser of `src/classes/email_parser.py` the claim
holds — the fallback timestamp is computed once at construction, and every
message with a missing or unparseable Date header receives that same value,
whatever the clock reads at the call. -/
theorem classes_parser_fallback_fixed (t0 n1 n2 : Nat) (d1 d2 : DateHeader)
    (h1 : d1 = DateHeader.missing ∨ d1 = DateHeader.unparseable)
    (h2 : d2 = DateHeader.missing ∨ d2 = DateHeader.unparseable) :
    classesParseDate (mkClassesEmailParser t0) d1 n1 = t0
    ∧ classesParseDate (mkClassesEmailParser t0) d2 n2 = t0
    ∧ classesParseDate (mkClassesEmailParser t0) d1 n1
        = classesParseDate (mkClassesEmailParser t0) d2 n2 := by
  rcases h1 with rfl | rfl <;> rcases h2 with rfl | rfl <;>
    simp [classesParseDate, mkClassesEmailParser]

/-- C5 witness: the amended theorem at construction time 5 and call times
11 and 12. -/
theorem classes_parser_fallback_fixed_witness :
    classesParseDate (mkClassesEmailParser 5) DateHeader.missing 11 = 5
    ∧ classesParseDate (mkClassesEmailParser 5) DateHeader.unparseable 12 = 5
    ∧ classesParseDate (mkClassesEmailParser 5) DateHeader.missing 11
        = classesParseDate (mkClassesEmailParser 5) DateHeader.unparseable 12 :=
  classes_parser_fallback_fixed 5 11 12 DateHeader.missing DateHeader.unparseable
    (Or.inl rfl) (Or.inr rfl)

/-! ## C8: an empty field list means the default field set -/

/-- C8: passing an empty field list to `search` is the same call as omitting
the argument — Python's falsiness check replaces both by the full searchable
field set, in the core engine and the classes engine alike; in particular
the empty list is neither rejected nor treated as searching no fields. -/
theorem empty_field_list_defaults (docs : List EmailDoc) (q : String)
    (dr : Option DateRangeFilter) (mr : Option Int) :
    coreSearch docs q (some []) dr mr = coreSearch docs q none dr mr
    ∧ classesSearch docs q (some []) dr = classesSearch docs q none dr :=
  ⟨rfl, rfl⟩

/-! ## C10: custom data directory validation -/

/-- C10: a non-existing custom data directory is rejected with
`FileNotFoundError` exactly when its final path component is `data`; any
other non-existing custom path is accepted, and the handler creates its
`attachments` and `processed` subdirectories. -/
theorem data_dir_name_gate (fsE : List String → Bool) (s : String)
    (hs : s ≠ "") (hne : fsE (parsePath s) = false) :
    (validateDataDir fsE (some s)
        = .error (.fileNotFoundError "Invalid data directory")
      ↔ pathName (parsePath s) = "data")
    ∧ (pathName (parsePath s) ≠ "data" →
        mkFileHandler fsE (some s)
          = .ok ({ data_dir := parsePath s,
                   attachments_dir := parsePath s ++ ["attachments"],
                   processed_dir := parsePath s ++ ["processed"] },
                 [parsePath s ++ ["attachments"], parsePath s ++ ["processed"]])) := by
  by_cases hname : pathName (parsePath s) = "data"
  · refine ⟨?_, fun h => absurd hname h⟩
    simp [validateDataDir, hs, hname, hne]
  · refine ⟨?_, fun _ => ?_⟩
    · simp [validateDataDir, hs, hname, hne]
    · simp [mkFileHandler, validateDataDir, hs, hname, hne]

/-- C10 witness: a non-existing custom directory `inbox-store` is accepted
and its subdirectories are created. -/
theorem data_dir_name_gate_witness :
    ((validateDataDir (fun _ => false) (some "inbox-store")
        = .error (.fileNotFoundError "Invalid data directory")
      ↔ pathName (parsePath "inbox-store") = "data")
    ∧ (pathName (parsePath "inbox-store") ≠ "data" →
        mkFileHandler (fun _ => false) (some "inbox-store")
          = .ok ({ data_dir := parsePath "inbox-store",
                   attachments_dir := parsePath "inbox-store" ++ ["attachments"],
                   processed_dir := parsePath "inbox-store" ++ ["processed"] },
                 [parsePath "inbox-store" ++ ["attachments"],
                  parsePath "inbox-store" ++ ["processed"]]))) :=
  data_dir_name_gate (fun _ => false) "inbox-store" (by decide) rfl

/-! ## C9: later same-subtype parts overwrite earlier ones -/

theorem bodyGet_step (b : EmailBody) (p : MimePart) (st : String)
    (hst : st = "plain" ∨ st = "html") :
    bodyGet (processMultipartStep b p) st
      = if (p.maintype = "text" && hasNoFilename p && p.subtype = st) = true
        then p.payload else bodyGet b st := by
  rcases hst with rfl | rfl <;>
    simp only [processMultipartStep, bodySet, bodyGet, Bool.and_eq_true,
      decide_eq_true_eq] <;>
    split_ifs <;> simp_all

theorem processMultipart_lastPayload (st : String) (hst : st = "plain" ∨ st = "html")
    (parts : List MimePart) (b : EmailBody) :
    bodyGet (processMultipart b parts) st
      = lastPayloadD (relevantParts st parts) (bodyGet b st) := by
  induction parts generalizing b with
  | nil => rfl
  | cons p rest ih =>
      have hfold : processMultipart b (p :: rest)
          = processMultipart (processMultipartStep b p) rest := rfl
      rw [hfold, ih (processMultipartStep b p), bodyGet_step b p st hst]
      by_cases hp : (p.maintype = "text" && hasNoFilename p && p.subtype = st) = true
      · rw [if_pos hp]
        simp [relevantParts, List.filter_cons, hp, lastPayloadD]
      · rw [if_neg hp]
        simp only [relevantParts, List.filter_cons] at *
        rw [if_neg (by simpa using hp)]

theorem lastPayloadD_getLast (parts : List MimePart) (dflt : String)
    (h : parts ≠ []) :
    ∃ p, parts.getLast? = some p ∧ lastPayloadD parts dflt = p.payload := by
  induction parts generalizing dflt with
  | nil => exact absurd rfl h
  | cons p rest ih =>
      cases rest with
      | nil => exact ⟨p, rfl, rfl⟩
      | cons q rest2 =>
          obtain ⟨r, h1, h2⟩ := ih p.payload (by simp)
          exact ⟨r, by rw [List.getLast?_cons_cons]; exact h1, h2⟩

/-- C9: in a multipart message with two or more filename-less text parts of
one subtype, the extracted body entry for that subtype is the decoded
payload of the last such part in walk order — each later part overwrites
the earlier ones. -/
theorem multipart_later_part_overwrites (parts : List MimePart) (b : EmailBody)
    (st : String) (hst : st = "plain" ∨ st = "html")
    (hn : 2 ≤ (relevantParts st parts).length) :
    ∃ p, (relevantParts st parts).getLast? = some p
      ∧ bodyGet (processMultipart b parts) st = p.payload := by
  have hne : relevantParts st parts ≠ [] := by
    intro hnil
    rw [hnil] at hn
    simp at hn
  obtain ⟨p, h1, h2⟩ := lastPayloadD_getLast (relevantParts st parts) (bodyGet b st) hne
  exact ⟨p, h1, by rw [processMultipart_lastPayload st hst parts b]; exact h2⟩

/-- C9 witness: two plain parts with payloads `first` and `second` leave
the second payload in the body. -/
theorem multipart_later_part_overwrites_witness :
    (2 ≤ (relevantParts "plain" demoParts).length)
    ∧ ∃ p, (relevantParts "plain" demoParts).getLast? = some p
        ∧ bodyGet (processMultipart { plain := "", html := "" } demoParts) "plain"
            = p.payload :=
  ⟨by decide,
   multipart_later_part_overwrites demoParts { plain := "", html := "" } "plain"
     (Or.inl rfl) (by decide)⟩

/-- Concrete reading of the overwrite behaviour on the witness parts. -/
theorem demoParts_overwrite :
    processMultipart { plain := "", html := "" } demoParts
      = { plain := "second", html := "" } := by
  decide

/-! ## C7: attachment filename sanitization -/

/-- C7 counterexample: an attachment declared as `evil/..` has
`Path(name).name = '..'`, so the computed target path
`attachments/abc123/..` resolves to the shared `attachments` directory —
outside the directory named after the owning record's id. -/
theorem save_attachment_dotdot_escapes :
    (save_attachment
        { data_dir := DATA_DIR, attachments_dir := DATA_DIR ++ ["attachments"],
          processed_dir := DATA_DIR ++ ["processed"] }
        "abc123"
        { name := "evil/..", mimeType := "text/plain", size := 1,
          content := [7] }).written_path
      = DATA_DIR ++ ["attachments", "abc123", ".."]
    ∧ normalizePath (DATA_DIR ++ ["attachments", "abc123", ".."])
        = DATA_DIR ++ ["attachments"]
    ∧ (normalizePath (DATA_DIR ++ ["attachments", "abc123", ".."])).take 4
        ≠ DATA_DIR ++ ["attachments", "abc123"] := by
  decide

theorem normalizePath_concat (p : List String) (c : String) (hc : c ≠ "..") :
    normalizePath (p ++ [c]) = normalizePath p ++ [c] := by
  simp [normalizePath, List.foldl_append, hc]

/-- C7 amended: whenever the declared name's final `pathlib` component is a
real filename (neither empty nor `..`) — which covers every traversal of
the `../../evil.txt` shape — `save_attachment` writes the bytes unchanged
to `<root>/attachments/<id>/<basename>`, returns that path relative to the
store root, and the written path lies inside the id's directory. -/
theorem save_attachment_sanitizes (ds : List String) (eid : String)
    (att : AttachmentRec) (hid : eid ≠ "")
    (hb0 : pathName (parsePath att.name) ≠ "")
    (hb2 : pathName (parsePath att.name) ≠ "..") :
    save_attachment
        { data_dir := ds, attachments_dir := ds ++ ["attachments"],
          processed_dir := ds ++ ["processed"] } eid att
      = { written_path := ds ++ ["attachments", eid, pathName (parsePath att.name)],
          written_content := att.content,
          returned := ["attachments", eid, pathName (parsePath att.name)] }
    ∧ (ds ++ ["attachments", eid, pathName (parsePath att.name)]).take (ds.length + 2)
        = ds ++ ["attachments", eid]
    ∧ normalizePath (ds ++ ["attachments", eid, pathName (parsePath att.name)])
        = normalizePath (ds ++ ["attachments", eid]) ++ [pathName (parsePath att.name)] := by
  have e4 : (ds ++ ["attachments", eid, pathName (parsePath att.name)] : List String)
      = (ds ++ ["attachments", eid]) ++ [pathName (parsePath att.name)] := by
    simp
  refine ⟨?_, ?_, ?_⟩
  · simp [save_attachment, joinPath, hid, hb0]
  · rw [e4, List.take_left' (by simp)]
  · rw [e4, normalizePath_concat _ _ hb2]

/-- Concrete sanitization: `Path('../../evil.txt').name` is `evil.txt`. -/
theorem demoEvilAtt_basename : pathName (parsePath demoEvilAtt.name) = "evil.txt" := by
  decide

/-- C7 witness: the amended theorem on the spec's own example — the
traversal name `../../evil.txt` under record id `abc123`. -/
theorem save_attachment_sanitizes_witness :
    save_attachment
        { data_dir := ["ROOT", "data"],
          attachments_dir := ["ROOT", "data"] ++ ["attachments"],
          processed_dir := ["ROOT", "data"] ++ ["processed"] } "abc123" demoEvilAtt
      = { written_path := ["ROOT", "data"]
            ++ ["attachments", "abc123", pathName (parsePath demoEvilAtt.name)],
          written_content := demoEvilAtt.content,
          returned := ["attachments", "abc123", pathName (parsePath demoEvilAtt.name)] }
    ∧ (["ROOT", "data"]
        ++ ["attachments", "abc123", pathName (parsePath demoEvilAtt.name)]).take
          (["ROOT", "data"].length + 2)
        = ["ROOT", "data"] ++ ["attachments", "abc123"]
    ∧ normalizePath (["ROOT", "data"]
        ++ ["attachments", "abc123", pathName (parsePath demoEvilAtt.name)])
        = normalizePath (["ROOT", "data"] ++ ["attachments", "abc123"])
          ++ [pathName (parsePath demoEvilAtt.name)] :=
  save_attachment_sanitizes ["ROOT", "data"] "abc123" demoEvilAtt
    (by decide) (by decide) (by decide)

/-! ## C1: ingesting identical bytes twice -/

/-- C1: from a state that has not seen the bytes' fingerprint, the first
ingest returns the processed record (accepted) and the second returns the
duplicate marker `None`; afterwards the record store holds exactly one
record under that fingerprint. The duplicate gate follows the spec's
`checkAndRegister` contract (§4.2), its parser-side implementation not
being under `src`. -/
theorem ingest_twice_accept_then_duplicate (st : OrganizerState) (B : List Nat)
    (h : generate_email_id B ∉ st.existing_ids) :
    (processEmail st B).1 = some { id := generate_email_id B }
    ∧ (processEmail (processEmail st B).2 B).1 = none
    ∧ storeCount (processEmail (processEmail st B).2 B).2 (generate_email_id B) = 1 := by
  have hmem : generate_email_id B ∈ st.existing_ids ++ [generate_email_id B] := by
    simp
  refine ⟨?_, ?_, ?_⟩ <;>
    simp [processEmail, h, hmem, storeCount, List.filter_append, List.filter_filter]

/-- C1 witness: ingesting the empty byte sequence twice into a fresh store. -/
theorem ingest_twice_witness :
    (processEmail emptyOrganizerState []).1 = some { id := generate_email_id [] }
    ∧ (processEmail (processEmail emptyOrganizerState []).2 []).1 = none
    ∧ storeCount (processEmail (processEmail emptyOrganizerState []).2 []).2
        (generate_email_id []) = 1 :=
  ingest_twice_accept_then_duplicate emptyOrganizerState [] (by simp [emptyOrganizerState])

/-! ## C2: query construction -/

/-- C2 counterexample: the classes engine does not use the match-everything
query on an empty query text — `_validate_search_params` raises
`ValueError('Search query cannot be empty')` first. On the spec's own
date-range test (records dated 2024-01-01, 2024-06-15, 2024-12-31, open
query, range [2024-02-01, 2024-07-01]) that engine errors instead of
returning the in-range 2024-06-15 record. -/
theorem classes_empty_query_rejected :
    classesSearch [demoJan, demoJun, demoDec] "" none
        (some (some 20240201, some 20240701))
      = .error (.valueError "Search query cannot be empty")
    ∧ classesSearch [demoJan, demoJun, demoDec] "" none
        (some (some 20240201, some 20240701)) ≠ .ok [demoJun] := by
  decide

theorem buildQuery_semantics (q : String) (flds : List String)
    (dr : Option DateRangeFilter) (hdr : dr ≠ some (none, none)) :
    ∃ qq, buildQuery q flds dr = .ok qq
      ∧ ∀ d, matchesQuery d qq = searchSpecMatches q flds dr d := by
  rcases dr with _ | ⟨_ | a, _ | b⟩
  · refine ⟨_, rfl, fun d => ?_⟩
    by_cases hq : pyStrip q = "" <;>
      simp [buildQuery, searchSpecMatches, matchesQuery, dateInRange, textMatch, hq]
  · exact absurd rfl hdr
  · refine ⟨_, rfl, fun d => ?_⟩
    by_cases hq : pyStrip q = "" <;>
      simp [buildQuery, searchSpecMatches, matchesQuery, dateInRange, textMatch, hq]
  · refine ⟨_, rfl, fun d => ?_⟩
    by_cases hq : pyStrip q = "" <;>
      simp [buildQuery, searchSpecMatches, matchesQuery, dateInRange, textMatch, hq]
  · refine ⟨_, rfl, fun d => ?_⟩
    by_cases hq : pyStrip q = "" <;>
      simp [buildQuery, searchSpecMatches, matchesQuery, dateInRange, textMatch, hq]

/-- C2 amended: for the core engine (the one `src/cli/search.py` drives),
an empty or whitespace-only query builds the match-everything query, so
(up to the result cap) the result is exactly the indexed documents whose
date lies in the supplied possibly half-open range; a non-empty query is
parsed over the selected fields — defaulting to all four searchable
fields — and conjoined with the date filter, the hits being exactly the
documents that match the text and lie in the range. (The legacy classes
engine instead rejects an empty query, per the counterexample above.) -/
theorem core_search_query_construction (docs : List EmailDoc) (q : String)
    (fields : Option (List String)) (dr : Option DateRangeFilter) (mr : Option Int)
    (hdr : dr ≠ some (none, none))
    (hf : ∀ f ∈ resolveFields fields, f ∈ SEARCHABLE_FIELDS)
    (hcap : 1 ≤ coreResultLimit mr) :
    coreSearch docs q fields dr mr
      = .ok ((docs.filter
          (searchSpecMatches q (resolveFields fields) dr)).take (coreResultLimit mr).toNat)
    ∧ (pyStrip q = "" → docs.length ≤ (coreResultLimit mr).toNat →
        coreSearch docs q fields dr mr = .ok (docs.filter (dateInRange dr))) := by
  obtain ⟨qq, hok, hsem⟩ := buildQuery_semantics q (resolveFields fields) dr hdr
  have hnl : ¬ coreResultLimit mr < 1 := not_lt.mpr hcap
  have hfilters : (resolveFields fields).filter
      (fun f => decide (f ∉ SEARCHABLE_FIELDS)) = [] := by
    refine List.filter_eq_nil_iff.mpr (fun a ha => ?_)
    simp [hf a ha]
  have hmain : coreSearch docs q fields dr mr
      = .ok ((docs.filter
          (searchSpecMatches q (resolveFields fields) dr)).take (coreResultLimit mr).toNat) := by
    have hstep : coreSearch docs q fields dr mr
        = .ok ((docs.filter
            (fun d => matchesQuery d qq)).take (coreResultLimit mr).toNat) := by
      simp [coreSearch, if_neg hnl, hfilters, hok]
      exact hf
    rw [hstep]
    exact congrArg (fun l => Except.ok (l.take (coreResultLimit mr).toNat))
      (List.filter_congr (fun d _ => hsem d))
  refine ⟨hmain, fun hq hlen => ?_⟩
  rw [hmain]
  have hfe : docs.filter (searchSpecMatches q (resolveFields fields) dr)
      = docs.filter (dateInRange dr) :=
    List.filter_congr (fun d _ => by simp [searchSpecMatches, hq])
  rw [hfe, List.take_of_length_le (le_trans (List.length_filter_le _ _) hlen)]

/-- C2 witness: the spec's date-range test — three indexed records dated
2024-01-01, 2024-06-15, 2024-12-31, an open query, and the range
[2024-02-01, 2024-07-01]. -/
theorem core_search_query_construction_witness :
    coreSearch [demoJan, demoJun, demoDec] "" none
        (some (some 20240201, some 20240701)) none
      = .ok (([demoJan, demoJun, demoDec].filter
          (searchSpecMatches "" (resolveFields none)
            (some (some 20240201, some 20240701)))).take
          (coreResultLimit none).toNat)
    ∧ (pyStrip "" = "" →
        [demoJan, demoJun, demoDec].length ≤ (coreResultLimit none).toNat →
        coreSearch [demoJan, demoJun, demoDec] "" none
            (some (some 20240201, some 20240701)) none
          = .ok ([demoJan, demoJun, demoDec].filter
              (dateInRange (some (some 20240201, some 20240701))))) :=
  core_search_query_construction [demoJan, demoJun, demoDec] "" none
    (some (some 20240201, some 20240701)) none (by decide) (by decide) (by decide)

/-- Concrete reading of the witness search: only the 2024-06-15 record is
returned. -/
theorem date_range_search_demo :
    coreSearch [demoJan, demoJun, demoDec] "" none
        (some (some 20240201, some 20240701)) none = .ok [demoJun] := by
  decide

/-! ## C3: validation of fields and result cap -/

/-- C3, evaluated at the failing input: the claim agrees with the search
docstring (`ValueError` when `max_results < 1`), but a cap of zero is falsy
in Python, so `max_results or self.MAX_RESULTS` silently substitutes the
default cap instead of raising — the search runs and returns its hits. -/
theorem zero_cap_not_rejected :
    coreSearch [demoJan] "" none none (some 0) = .ok [demoJan] := by
  decide

/-- C3 amended: a negative result cap, or a field name outside the four
searchable fields, fails with `ValueError` before the index is read — the
outcome does not depend on the indexed documents; a zero cap is treated as
unsupplied and replaced by the positive default rather than rejected. -/
theorem search_validation_rejects (docs docs2 : List EmailDoc) (q : String)
    (fields : Option (List String)) (dr : Option DateRangeFilter) (n : Int) :
    (n < 0 →
      coreSearch docs q fields dr (some n)
        = .error (.valueError "max_results must be greater than 0")
      ∧ coreSearch docs q fields dr (some n) = coreSearch docs2 q fields dr (some n))
    ∧ (∀ mr, 1 ≤ coreResultLimit mr →
        ((resolveFields fields).filter (fun f => decide (f ∉ SEARCHABLE_FIELDS))) ≠ [] →
        coreSearch docs q fields dr mr = .error (.valueError "Invalid search fields")
        ∧ coreSearch docs q fields dr mr = coreSearch docs2 q fields dr mr) := by
  constructor
  · intro hn
    have hne : n ≠ 0 := by omega
    have hlt : coreResultLimit (some n) < 1 := by
      simp only [coreResultLimit, if_neg hne]
      omega
    constructor <;> simp [coreSearch, if_pos hlt]
  · intro mr hcap hinv
    have hnl : ¬ coreResultLimit mr < 1 := not_lt.mpr hcap
    have herr : ∀ ds : List EmailDoc,
        coreSearch ds q fields dr mr = .error (.valueError "Invalid search fields") := by
      intro ds
      simp only [coreSearch]
      rw [if_neg hnl, if_pos hinv]
    exact ⟨herr docs, (herr docs).trans (herr docs2).symm⟩

/-- C3 witness: a negative cap and an invalid field name are both rejected
with `ValueError`, regardless of the indexed documents. -/
theorem search_validation_rejects_witness :
    ((-1 : Int) < 0
      ∧ coreSearch [demoJan] "x" (some ["oops"]) none (some (-1))
          = .error (.valueError "max_results must be greater than 0"))
    ∧ (1 ≤ coreResultLimit none
      ∧ ((resolveFields (some ["oops"])).filter
          (fun f => decide (f ∉ SEARCHABLE_FIELDS))) ≠ []
      ∧ coreSearch [demoJan] "x" (some ["oops"]) none none
          = .error (.valueError "Invalid search fields")) :=
  ⟨⟨by decide,
    ((search_validation_rejects [demoJan] [] "x" (some ["oops"]) none (-1)).1
      (by decide)).1⟩,
   ⟨by decide, by decide,
    ((search_validation_rejects [demoJan] [] "x" (some ["oops"]) none (-1)).2 none
      (by decide) (by decide)).1⟩⟩

/-! ## C4: the default result cap -/

/-- C4 counterexample: the classes engine's `MAX_RESULTS` is `None`, so a
call to its `search` — which cannot even be given a cap — over 101 matching
documents returns all 101 results, exceeding the fixed positive default
maximum the core configuration defines. -/
theorem classes_search_unbounded :
    classesSearch (List.replicate 101 demoJan) "a" none none
      = .ok (List.replicate 101 demoJan)
    ∧ DEFAULT_MAX_RESULTS.toNat < (List.replicate 101 demoJan).length := by
  constructor
  · decide
  · decide

/-- C4 amended: the core engine's `search` without an explicit cap returns
at most `DEFAULT_MAX_RESULTS` (a fixed positive default) results; the
legacy classes engine searches with `limit=None` and returns every match. -/
theorem core_search_default_cap (docs : List EmailDoc) (q : String)
    (fields : Option (List String)) (dr : Option DateRangeFilter)
    (l : List EmailDoc) (h : coreSearch docs q fields dr none = .ok l) :
    l.length ≤ DEFAULT_MAX_RESULTS.toNat ∧ 0 < DEFAULT_MAX_RESULTS := by
  refine ⟨?_, by decide⟩
  simp only [coreSearch] at h
  split at h
  · simp at h
  · split at h
    · simp at h
    · split at h
      · simp at h
      · have hinj := Except.ok.inj h
        rw [← hinj]
        exact List.length_take_le _ _

/-- C4 witness: the amended bound on a one-document index. -/
theorem core_search_default_cap_witness :
    ([demoJan] : List EmailDoc).length ≤ DEFAULT_MAX_RESULTS.toNat
    ∧ 0 < DEFAULT_MAX_RESULTS :=
  core_search_default_cap [demoJan] "" none none [demoJan] (by decide)

end InboxForge
